import Mathlib

/-!
Shallow embedding of the ferriskey-performance-tester seeding and cleanup
scripts (Python) in Lean 4, together with theorems settling the frozen
claims about the natural-language specification.

Sources embedded:
  * src/scripts/lib/ferriskey_provider.py  (FerrisKeyProvider, "Backend B")
  * src/scripts/lib/keycloak_provider.py   (KeycloakProvider, "Backend A")
  * src/scripts/lib/config.py              (load_config normalisation)
  * src/scripts/seed_test_data.py          (seed orchestration `main`)
  * src/scripts/cleanup_test_data_keycloak.py (cleanup orchestration)

HTTP interactions are embedded by passing the server's response (or `none`
for a transport-level `requests.exceptions.RequestException`) as an explicit
argument; process exit (`sys.exit k`) is embedded as `Except.error k`.
-/

namespace FerrisKeyPerf

/-- Python truthiness of an optional string value (`if not x` is taken for
`x = None` and for the empty string `""`). -/
def pyTruthyStr : Option String → Bool
  | none => false
  | some s => !(s == "")

/-- Python's `a or b` on two optional string values: yields `a` when `a` is
truthy, otherwise `b` (even when `b` is falsy). -/
def pyOrStr (a b : Option String) : Option String :=
  if pyTruthyStr a then a else b

/-- The characters Python's `str.strip()` removes (ASCII whitespace). -/
def isPySpace (c : Char) : Bool :=
  c = ' ' ∨ c = '\t' ∨ c = '\n' ∨ c = '\r' ∨ c = '\x0b' ∨ c = '\x0c'

/-- Embedding of Python's `str.strip()`: drop whitespace from both ends. -/
def pyStrip (s : String) : String :=
  ⟨((s.data.dropWhile isPySpace).reverse.dropWhile isPySpace).reverse⟩

/-- Embedding of Python's `str.lower()` restricted to ASCII letters. -/
def pyLowerChar (c : Char) : Char :=
  if 'A' ≤ c ∧ c ≤ 'Z' then Char.ofNat (c.toNat + 32) else c

/-- Embedding of Python's `str.lower()`. -/
def pyLower (s : String) : String :=
  ⟨s.data.map pyLowerChar⟩

/-- Embedding of Python's `k.startswith("_")`. -/
def startsWithUnderscore (k : String) : Bool :=
  match k.data with
  | [] => false
  | c :: _ => c = '_'

/-! ## Decimal formatting (`f"{i:03d}"`, seed_test_data.py line 255) -/

/-- The decimal digit characters used by Python's `str`/format of an int. -/
def digitChar (d : Nat) : Char :=
  match d with
  | 0 => '0' | 1 => '1' | 2 => '2' | 3 => '3' | 4 => '4'
  | 5 => '5' | 6 => '6' | 7 => '7' | 8 => '8' | 9 => '9'
  | _ => '?'

/-- Little-endian base-10 digits of `n` (fuel-driven, structurally
recursive so that concrete instances evaluate in the kernel). -/
def digitsRevFuel : Nat → Nat → List Nat
  | 0, _ => []
  | fuel + 1, n => if n = 0 then [] else n % 10 :: digitsRevFuel fuel (n / 10)

/-- Little-endian base-10 digits of `n` (empty for `n = 0`). -/
def digitsRev (n : Nat) : List Nat :=
  digitsRevFuel n n

/-- Embedding of Python's `str(n)` for a non-negative int. -/
def pyStrNat (n : Nat) : String :=
  if n = 0 then "0" else ⟨(digitsRev n).reverse.map digitChar⟩

/-- Embedding of Python's `f"{n:03d}"`: the decimal representation of `n`
left-padded with `'0'` to a minimum width of 3. -/
def pyFormat03 (n : Nat) : String :=
  let s := pyStrNat n
  ⟨List.replicate (3 - s.data.length) '0' ++ s.data⟩

/-- Username derivation of seed_test_data.py `main` (lines 255-256):
`username = f"perf-user-{i:03d}"`. -/
def seedUsername (i : Nat) : String :=
  "perf-user-" ++ pyFormat03 i

/-! ## Authentication (password-grant token request handling)

All four `get_admin_token` copies in the repository share the same response
handling: `raise_for_status()` (raises `HTTPError`, a `RequestException`,
for statuses in [400, 600)), then `response.json().get("access_token")`,
exiting the process when the token is missing or falsy.  `sys.exit(1)` is
embedded as `Except.error 1`. -/

/-- A token-endpoint HTTP response: status code and the (optional) string
value of the `access_token` field of the JSON body. -/
structure TokenHttpResponse where
  status : Nat
  accessToken : Option String
  deriving DecidableEq, Repr

/-- `requests.Response.raise_for_status` raises for `400 ≤ status < 600`. -/
def raisesForStatus (s : Nat) : Bool :=
  if 400 ≤ s ∧ s < 600 then true else false

/-- Shared token-response handling of every `get_admin_token` in the
repository: transport exception or raising status → `sys.exit(1)`;
missing or empty `access_token` → `sys.exit(1)`; otherwise the token. -/
def tokenResult (resp : Option TokenHttpResponse) : Except Nat String :=
  match resp with
  | none => .error 1
  | some r =>
    if raisesForStatus r.status then .error 1
    else
      match r.accessToken with
      | none => .error 1
      | some t => if t = "" then .error 1 else .ok t

/-- `KeycloakProvider.get_admin_token` (keycloak_provider.py lines 24-52):
posts the password-grant request and handles the response. -/
def kcGetAdminToken (resp : Option TokenHttpResponse) : Except Nat String :=
  tokenResult resp

/-- `get_admin_token` of cleanup_test_data_keycloak.py (lines 51-79):
identical response handling. -/
def cleanupGetAdminToken (resp : Option TokenHttpResponse) : Except Nat String :=
  tokenResult resp

/-- The configuration fields consumed by `FerrisKeyProvider.get_admin_token`
(config.py `Config`). -/
structure FkAuthConfig where
  adminClientId : Option String
  adminClientSecret : Option String
  adminUsername : String
  adminPassword : String
  deriving DecidableEq, Repr

/-- config.py `load_config` normalisation of an optional environment
variable: `os.getenv(name, "").strip()` kept only when nonempty
(`value if value else None`). -/
def envNorm (v : Option String) : Option String :=
  let s := pyStrip (v.getD "")
  if s = "" then none else some s

/-- The authentication-relevant part of config.py `load_config`:
`ADMIN_CLIENT_ID` / `ADMIN_CLIENT_SECRET` are env-normalised, username and
password are taken as given. -/
def loadFkAuthConfig (envCid envCsec : Option String) (u p : String) :
    FkAuthConfig :=
  { adminClientId := envNorm envCid
    adminClientSecret := envNorm envCsec
    adminUsername := u
    adminPassword := p }

/-- The form body of a password-grant token request (ferriskey_provider.py
lines 43-52); `clientSecret = none` means the `client_secret` key is not in
the request body. -/
structure TokenRequest where
  grantType : String
  clientId : String
  username : String
  password : String
  clientSecret : Option String
  deriving DecidableEq, Repr

/-- The request body built by `FerrisKeyProvider.get_admin_token`
(lines 43-52): `client_secret` is added only when the configured admin
client secret is truthy. -/
def fkTokenRequestData (cfg : FkAuthConfig) : TokenRequest :=
  { grantType := "password"
    clientId := cfg.adminClientId.getD ""
    username := cfg.adminUsername
    password := cfg.adminPassword
    clientSecret :=
      if pyTruthyStr cfg.adminClientSecret then cfg.adminClientSecret
      else none }

/-- `FerrisKeyProvider.get_admin_token` (ferriskey_provider.py lines 32-68),
with the list of token requests actually issued as a trace: a falsy
`config.admin_client_id` exits the process (code 1) before any request;
otherwise exactly one request is posted and the response handled as usual. -/
def fkGetAdminTokenTr (cfg : FkAuthConfig) (resp : Option TokenHttpResponse) :
    Except Nat String × List TokenRequest :=
  if pyTruthyStr cfg.adminClientId then
    (tokenResult resp, [fkTokenRequestData cfg])
  else
    (.error 1, [])

/-! ## Realm creation and deletion -/

/-- `FerrisKeyProvider.create_realm` (ferriskey_provider.py lines 70-98) as
a function of the HTTP status (`none` = transport exception, caught and
mapped to `False`). -/
def fkCreateRealm (resp : Option Nat) : Bool :=
  match resp with
  | none => false
  | some s =>
    if s = 200 ∨ s = 201 then true
    else if s = 400 ∨ s = 409 then true
    else false

/-- `KeycloakProvider.create_realm` (keycloak_provider.py lines 54-87):
success on 200/201/204, "already exists" only on 409. -/
def kcCreateRealm (resp : Option Nat) : Bool :=
  match resp with
  | none => false
  | some s =>
    if s = 200 ∨ s = 201 ∨ s = 204 then true
    else if s = 409 then true
    else false

/-- `delete_realm` of cleanup_test_data_keycloak.py (lines 82-107):
success on 200/204, 404 treated as success, anything else (and transport
exceptions) `False`. -/
def kcDeleteRealm (resp : Option Nat) : Bool :=
  match resp with
  | none => false
  | some s =>
    if s = 200 ∨ s = 204 then true
    else if s = 404 then true
    else false

/-! ## Client creation -/

/-- A Python JSON value as far as the client fixture dictionaries go. -/
inductive PyVal where
  | pstr (s : String)
  | pbool (b : Bool)
  deriving DecidableEq, Repr

/-- The `client_data` dictionary built by
`FerrisKeyProvider.create_default_client` (ferriskey_provider.py lines
220-229); note: it carries no `client_secret` entry. -/
def fkDefaultClientData (clientId : String) : List (String × PyVal) :=
  [("name", .pstr "Performance Test Client"),
   ("client_id", .pstr clientId),
   ("client_type", .pstr "confidential"),
   ("service_account_enabled", .pbool true),
   ("public_client", .pbool false),
   ("protocol", .pstr "openid-connect"),
   ("enabled", .pbool true),
   ("direct_access_grants_enabled", .pbool true)]

/-- `clean_data` of `FerrisKeyProvider.create_client` (line 112): drop the
entries whose key starts with an underscore. -/
def cleanClientData (d : List (String × PyVal)) : List (String × PyVal) :=
  d.filter (fun kv => !(startsWithUnderscore kv.1))

/-- The `id` fields of a JSON body in the FerrisKey style:
`result.get("data", {}).get("id")` and `result.get("id")`. -/
structure JsonIdBody where
  dataId : Option String
  topId : Option String
  deriving DecidableEq, Repr

/-- A FerrisKey create-client/create-user HTTP response; `body = none`
means `response.json()` raised. -/
structure FkCreateResponse where
  status : Nat
  body : Option JsonIdBody
  deriving DecidableEq, Repr

/-- The HTTP calls a FerrisKey client workflow can issue. -/
inductive FkCall where
  | createClientPost
  | getClientSecretGet
  deriving DecidableEq, Repr

/-- `FerrisKeyProvider.create_client` (ferriskey_provider.py lines
100-135): on 200/201, `result.get("data", {}).get("id") or
result.get("id")` (or `None` when the JSON parse raises); on 400/409
("may already exist") `None` with no further call; otherwise `None`. -/
def fkCreateClient (resp : Option FkCreateResponse) : Option String :=
  match resp with
  | none => none
  | some r =>
    if r.status = 200 ∨ r.status = 201 then
      match r.body with
      | none => none
      | some b => pyOrStr b.dataId b.topId
    else if r.status = 400 ∨ r.status = 409 then none
    else none

/-- `FerrisKeyProvider.create_client` with its HTTP-call trace: exactly one
POST in every branch. -/
def fkCreateClientTr (resp : Option FkCreateResponse) :
    Option String × List FkCall :=
  (fkCreateClient resp, [.createClientPost])

/-- The `secret` fields of a FerrisKey client-fetch JSON body:
`data.get("data", {}).get("secret")` and `data.get("secret")`. -/
structure JsonSecretBody where
  dataSecret : Option String
  topSecret : Option String
  deriving DecidableEq, Repr

/-- A FerrisKey `GET /realms/{realm}/clients/{uuid}` response. -/
structure FkGetSecretResponse where
  status : Nat
  body : JsonSecretBody
  deriving DecidableEq, Repr

/-- `FerrisKeyProvider.get_client_secret` (ferriskey_provider.py lines
203-216): on 200, `data.get("data", {}).get("secret") or
data.get("secret")`; otherwise (and on transport exception) `None`. -/
def fkGetClientSecret (resp : Option FkGetSecretResponse) : Option String :=
  match resp with
  | none => none
  | some r =>
    if r.status = 200 then pyOrStr r.body.dataSecret r.body.topSecret
    else none

/-- `FerrisKeyProvider.get_client_secret` with its HTTP-call trace. -/
def fkGetClientSecretTr (resp : Option FkGetSecretResponse) :
    Option String × List FkCall :=
  (fkGetClientSecret resp, [.getClientSecretGet])

/-- `FerrisKeyProvider.create_default_client` (ferriskey_provider.py lines
218-237): create the client from `fkDefaultClientData`; a falsy UUID gives
`(None, None)`; otherwise fetch the server-generated secret via
`get_client_secret`.  The second component traces the HTTP calls issued. -/
def fkCreateDefaultClient (createResp : Option FkCreateResponse)
    (secretResp : Option FkGetSecretResponse) :
    (Option String × Option String) × List FkCall :=
  let (clientUuid, tr1) := fkCreateClientTr createResp
  if pyTruthyStr clientUuid then
    let (clientSecret, tr2) := fkGetClientSecretTr secretResp
    ((clientUuid, clientSecret), tr1 ++ tr2)
  else
    ((none, none), tr1)

/-- Embedding of Python's `location.split("/")` on the character list. -/
def splitOnSlash (cs : List Char) : List (List Char) :=
  match cs with
  | [] => [[]]
  | c :: rest =>
    let r := splitOnSlash rest
    if c = '/' then [] :: r
    else
      match r with
      | [] => [[c]]
      | h :: t => (c :: h) :: t

/-- Embedding of Python's `location.split("/")[-1]` (the split of a string
is never empty, so the default is unreachable). -/
def lastPathSegment (s : String) : String :=
  ⟨(splitOnSlash s.data).getLastD []⟩

/-- One entry of a Keycloak client-list JSON response (`c.get("id")`). -/
structure KcClientEntry where
  id : Option String
  deriving DecidableEq, Repr

/-- A Keycloak `GET /admin/realms/{realm}/clients?clientId=...` response. -/
structure KcListClientsResponse where
  status : Nat
  clients : List KcClientEntry
  deriving DecidableEq, Repr

/-- `KeycloakProvider._get_client_uuid` (keycloak_provider.py lines
138-154): on 200 with a nonempty list, the first entry's `id`; otherwise
(and on transport exception) `None`. -/
def kcGetClientUuid (resp : Option KcListClientsResponse) : Option String :=
  match resp with
  | none => none
  | some r =>
    if r.status = 200 then
      match r.clients with
      | [] => none
      | e :: _ => e.id
    else none

/-- A Keycloak create-client HTTP response: status and `Location` header. -/
structure KcCreateClientResponse where
  status : Nat
  location : Option String
  deriving DecidableEq, Repr

/-- `KeycloakProvider.create_client` (keycloak_provider.py lines 89-136):
on 200/201/204 the UUID is the final path segment of the `Location` header
(`None` when the header is missing or empty, via
`response.headers.get("Location", "")`); on 409 the secondary lookup
`_get_client_uuid` is consulted; otherwise `None`. -/
def kcCreateClient (resp : Option KcCreateClientResponse)
    (lookupResp : Option KcListClientsResponse) : Option String :=
  match resp with
  | none => none
  | some r =>
    if r.status = 200 ∨ r.status = 201 ∨ r.status = 204 then
      let location := r.location.getD ""
      if location = "" then none else some (lastPathSegment location)
    else if r.status = 409 then kcGetClientUuid lookupResp
    else none

/-! ## Seeding orchestration (seed_test_data.py `main`, lines 224-291) -/

/-- The observable remote operations of a seeding run. -/
inductive SeedEvent where
  | auth
  | createRealm
  | createClient
  | createUser (i : Nat)
  | setPassword (i : Nat)
  deriving DecidableEq, Repr

/-- Success of the two-call user provisioning at index `i`, given the
create-user outcome oracle `createO` (the returned user id, `none` for any
failure) and the set-password outcome oracle `pwO`. -/
def userSuccess (createO : Nat → Option String) (pwO : Nat → Bool)
    (i : Nat) : Bool :=
  pyTruthyStr (createO i) && pwO i

/-- One iteration of the user-creation loop (seed_test_data.py lines
254-274): attempt `create_user`; when the returned id is truthy attempt
`set_user_password` and increment `created` on success, otherwise
increment `failed`.  The accumulator is `(created, failed, events)`. -/
def seedUserStep (createO : Nat → Option String) (pwO : Nat → Bool)
    (acc : Nat × Nat × List SeedEvent) (i : Nat) : Nat × Nat × List SeedEvent :=
  let (created, failed, evs) := acc
  let evs := evs ++ [SeedEvent.createUser i]
  if pyTruthyStr (createO i) then
    if pwO i then (created + 1, failed, evs ++ [SeedEvent.setPassword i])
    else (created, failed + 1, evs ++ [SeedEvent.setPassword i])
  else (created, failed + 1, evs)

/-- The user-creation loop `for i in range(1, user_count + 1)` of
seed_test_data.py `main` (lines 251-274), returning the final
`(created, failed)` counters and the event trace. -/
def seedUsers (n : Nat) (createO : Nat → Option String) (pwO : Nat → Bool) :
    Nat × Nat × List SeedEvent :=
  (List.range' 1 n).foldl (seedUserStep createO pwO) (0, 0, [])

/-- seed_test_data.py `main` (lines 224-291): authenticate (a fatal
authentication exits the process with the trace stopping there), then
create the realm (result ignored), each fixture client (results ignored),
and the users.  Returns the process exit code and the event trace. -/
def seedMain (auth : Except Nat String) (realmResp : Option Nat)
    (clientResps : List (Option FkCreateResponse)) (userCount : Nat)
    (createO : Nat → Option String) (pwO : Nat → Bool) :
    Nat × List SeedEvent :=
  match auth with
  | .error c => (c, [SeedEvent.auth])
  | .ok _ =>
    let _ := fkCreateRealm realmResp
    let clientEvs := clientResps.map (fun r =>
      let _ := fkCreateClient r
      SeedEvent.createClient)
    let (_, _, userEvs) := seedUsers userCount createO pwO
    (0, SeedEvent.auth :: SeedEvent.createRealm :: (clientEvs ++ userEvs))

/-! ## Cleanup orchestration (cleanup_test_data_keycloak.py, lines 110-143) -/

/-- The observable remote operations of a cleanup run. -/
inductive CleanupEvent where
  | authCall
  | deleteRealmCall
  deriving DecidableEq, Repr

/-- `confirm_deletion` (cleanup_test_data_keycloak.py lines 110-122):
`input()` raising `KeyboardInterrupt`/`EOFError` is `none`; otherwise the
answer is affirmative exactly when `response.strip().lower()` is `"y"` or
`"yes"`. -/
def confirmDeletion (input : Option String) : Bool :=
  match input with
  | none => false
  | some s =>
    if pyLower (pyStrip s) = "y" ∨ pyLower (pyStrip s) = "yes" then true
    else false

/-- cleanup_test_data_keycloak.py `main` (lines 125-143): a non-affirmative
confirmation exits with code 0 before any network call; otherwise
authenticate (fatal failure exits with its code) and delete the realm
(result ignored), exiting with code 0. -/
def cleanupMain (input : Option String) (authResp : Option TokenHttpResponse)
    (deleteResp : Option Nat) : Nat × List CleanupEvent :=
  if confirmDeletion input then
    match cleanupGetAdminToken authResp with
    | .error c => (c, [CleanupEvent.authCall])
    | .ok _ =>
      let _ := kcDeleteRealm deleteResp
      (0, [CleanupEvent.authCall, CleanupEvent.deleteRealmCall])
  else (0, [])

/-! ## Verification helpers (not part of the embedded program) -/

/-- Value of a little-endian digit list. -/
def ofDigitsRev : List Nat → Nat
  | [] => 0
  | d :: ds => d + 10 * ofDigitsRev ds

/-- Inverse of `digitChar` on decimal digits. -/
def charToDigit (c : Char) : Nat :=
  c.toNat - 48

/-- Decode a decimal string (leading zeroes allowed). -/
def decodeDec (s : String) : Nat :=
  ofDigitsRev ((s.data.map charToDigit).reverse)

/-- The events one iteration of the user loop appends. -/
def userEvents (createO : Nat → Option String) (i : Nat) : List SeedEvent :=
  SeedEvent.createUser i ::
    (if pyTruthyStr (createO i) then [SeedEvent.setPassword i] else [])

theorem ofDigitsRev_digitsRevFuel :
    ∀ fuel n, n ≤ fuel → ofDigitsRev (digitsRevFuel fuel n) = n := by
  intro fuel
  induction fuel with
  | zero =>
    intro n hn
    interval_cases n
    rfl
  | succ fuel ih =>
    intro n hn
    by_cases h0 : n = 0
    · subst h0; simp [digitsRevFuel, ofDigitsRev]
    · have hdiv : n / 10 ≤ fuel := by
        have : n / 10 < n := Nat.div_lt_self (Nat.pos_of_ne_zero h0) (by decide)
        omega
      simp only [digitsRevFuel, if_neg h0, ofDigitsRev, ih _ hdiv]
      exact Nat.mod_add_div n 10

theorem ofDigitsRev_digitsRev (n : Nat) : ofDigitsRev (digitsRev n) = n :=
  ofDigitsRev_digitsRevFuel n n le_rfl

theorem digitsRevFuel_lt_ten :
    ∀ fuel n d, d ∈ digitsRevFuel fuel n → d < 10 := by
  intro fuel
  induction fuel with
  | zero => intro n d hd; simp [digitsRevFuel] at hd
  | succ fuel ih =>
    intro n d hd
    by_cases h0 : n = 0
    · subst h0; simp [digitsRevFuel] at hd
    · simp only [digitsRevFuel, if_neg h0, List.mem_cons] at hd
      rcases hd with h | h
      · subst h; exact Nat.mod_lt n (by decide)
      · exact ih _ _ h

theorem charToDigit_digitChar (d : Nat) (hd : d < 10) :
    charToDigit (digitChar d) = d := by
  interval_cases d <;> rfl

theorem ofDigitsRev_append_zeros :
    ∀ (l : List Nat) (k : Nat), ofDigitsRev (l ++ List.replicate k 0) = ofDigitsRev l := by
  intro l
  induction l with
  | nil =>
    intro k
    induction k with
    | zero => rfl
    | succ k ih => simpa [List.replicate_succ, ofDigitsRev] using ih
  | cons d ds ih => intro k; simp [ofDigitsRev, ih]

theorem decodeDec_pyFormat03 (n : Nat) : decodeDec (pyFormat03 n) = n := by
  by_cases h0 : n = 0
  · subst h0; decide
  · have hdata : (pyFormat03 n).data =
        List.replicate (3 - ((digitsRev n).reverse.map digitChar).length) '0' ++
          (digitsRev n).reverse.map digitChar := by
      simp [pyFormat03, pyStrNat, if_neg h0]
    have hmap : ((digitsRev n).reverse.map digitChar).map charToDigit =
        (digitsRev n).reverse := by
      rw [List.map_map]
      have : ∀ d ∈ (digitsRev n).reverse, (charToDigit ∘ digitChar) d = d := by
        intro d hd
        have : d < 10 := digitsRevFuel_lt_ten n n d (List.mem_reverse.mp hd)
        simpa using charToDigit_digitChar d this
      simpa using List.map_congr_left this
    rw [decodeDec, hdata, List.map_append, List.map_replicate]
    have hz : charToDigit '0' = 0 := rfl
    rw [hz, hmap, List.reverse_append, List.reverse_reverse, List.reverse_replicate,
      ofDigitsRev_append_zeros, ofDigitsRev_digitsRev]

theorem pyFormat03_injective {i j : Nat} (h : pyFormat03 i = pyFormat03 j) :
    i = j := by
  have := congrArg decodeDec h
  rwa [decodeDec_pyFormat03, decodeDec_pyFormat03] at this

theorem seedUsername_injective {i j : Nat} (h : seedUsername i = seedUsername j) :
    i = j := by
  apply pyFormat03_injective
  apply String.ext
  have hd := congrArg String.data h
  rw [seedUsername, seedUsername, String.data_append, String.data_append] at hd
  exact List.append_cancel_left hd

theorem countP_add_countP_not (l : List Nat) (p : Nat → Bool) :
    l.countP p + l.countP (fun a => !(p a)) = l.length := by
  induction l with
  | nil => rfl
  | cons a l ih =>
    rw [List.countP_cons, List.countP_cons, List.length_cons]
    cases h : p a <;> simp [h] <;> omega

theorem countP_flip_one :
    ∀ (l : List Nat) (p q : Nat → Bool) (j : Nat), l.Nodup → j ∈ l →
      (∀ i ∈ l, i ≠ j → p i = q i) → p j = false → q j = true →
      l.countP q = l.countP p + 1 := by
  intro l
  induction l with
  | nil => intro p q j _ hj; simp at hj
  | cons a l ih =>
    intro p q j hnd hj hpq hpj hqj
    rw [List.countP_cons, List.countP_cons]
    rcases List.mem_cons.mp hj with heq | hj'
    · subst heq
      have hnotin : j ∉ l := (List.nodup_cons.mp hnd).1
      have : l.countP p = l.countP q := by
        apply List.countP_congr
        intro x hx
        have hne : x ≠ j := fun he => hnotin (he ▸ hx)
        rw [hpq x (List.mem_cons_of_mem j hx) hne]
      rw [hpj, hqj, this]
      simp
    · have ha : a ≠ j := by
        rintro rfl
        exact (List.nodup_cons.mp hnd).1 hj'
      have := ih p q j (List.nodup_cons.mp hnd).2 hj'
        (fun i hi hne => hpq i (List.mem_cons_of_mem a hi) hne) hpj hqj
      rw [this, hpq a (List.mem_cons_self a l) ha]
      omega

theorem seedUsers_foldl (createO : Nat → Option String) (pwO : Nat → Bool) :
    ∀ (l : List Nat) (c0 f0 : Nat) (evs0 : List SeedEvent),
      l.foldl (seedUserStep createO pwO) (c0, f0, evs0) =
        (c0 + l.countP (userSuccess createO pwO),
         f0 + l.countP (fun i => !(userSuccess createO pwO i)),
         evs0 ++ l.flatMap (userEvents createO)) := by
  intro l
  induction l with
  | nil => intro c0 f0 evs0; simp
  | cons i l ih =>
    intro c0 f0 evs0
    rw [List.foldl_cons, List.countP_cons, List.countP_cons, List.flatMap_cons]
    by_cases ht : pyTruthyStr (createO i)
    · by_cases hp : pwO i
      · have hs : userSuccess createO pwO i = true := by
          simp [userSuccess, ht, hp]
        rw [seedUserStep, if_pos ht, if_pos hp, ih]
        simp [hs, userEvents, ht]
        omega
      · have hs : userSuccess createO pwO i = false := by
          simp [userSuccess, hp]
        rw [seedUserStep, if_pos ht, if_neg hp, ih]
        simp [hs, userEvents, ht]
        omega
    · have hs : userSuccess createO pwO i = false := by
        simp [userSuccess, ht]
      rw [seedUserStep, if_neg ht, ih]
      simp [hs, userEvents, ht]
      omega

theorem seedUsers_eq (n : Nat) (createO : Nat → Option String) (pwO : Nat → Bool) :
    seedUsers n createO pwO =
      ((List.range' 1 n).countP (userSuccess createO pwO),
       (List.range' 1 n).countP (fun i => !(userSuccess createO pwO i)),
       (List.range' 1 n).flatMap (userEvents createO)) := by
  rw [seedUsers, seedUsers_foldl]
  simp

theorem envNorm_no_empty (v : Option String) (s : String)
    (h : envNorm v = some s) : s ≠ "" := by
  unfold envNorm at h
  by_cases he : pyStrip (v.getD "") = ""
  · simp [he] at h
  · simp [he] at h
    exact h ▸ he

theorem pyTruthyStr_envNorm (v : Option String) :
    pyTruthyStr (envNorm v) = (envNorm v).isSome := by
  cases h : envNorm v with
  | none => rfl
  | some s =>
    have := envNorm_no_empty v s h
    simp [pyTruthyStr, this]

/-! ## Claim theorems -/

/-- C5: for every user count N and every index i in [1, N], the derived
username equals the prefix concatenated with i zero-padded to width 3
(e.g. i = 7 gives perf-user-007), and no two distinct indices in [1, N]
produce the same username. -/
theorem claim_C5_usernames (N i j : Nat) (hi1 : 1 ≤ i) (hiN : i ≤ N)
    (hj1 : 1 ≤ j) (hjN : j ≤ N) :
    seedUsername i = "perf-user-" ++ pyFormat03 i ∧
    seedUsername 7 = "perf-user-007" ∧
    (i ≠ j → seedUsername i ≠ seedUsername j) :=
  ⟨rfl, by decide, fun hne he => hne (seedUsername_injective he)⟩

/-- Witness for C5 at N = 50, i = 7, j = 3. -/
theorem claim_C5_witness :
    seedUsername 7 = "perf-user-007" ∧ seedUsername 7 ≠ seedUsername 3 :=
  ⟨(claim_C5_usernames 50 7 3 (by decide) (by decide) (by decide) (by decide)).2.1,
   (claim_C5_usernames 50 7 3 (by decide) (by decide) (by decide)
      (by decide)).2.2 (by decide)⟩

/-- C2: the user-creation loop attempts a create-user call for every index
in [1, N] regardless of other indices' outcomes; exactly one of the two
counters is incremented per index (created exactly on the indices where the
create call yields a truthy identifier and the password call succeeds), so
created + failed = N, and flipping a single index from success to failure
raises failed by exactly 1. -/
theorem claim_C2_user_loop (n : Nat) (createO : Nat → Option String)
    (pwO : Nat → Bool) :
    (seedUsers n createO pwO).1 + (seedUsers n createO pwO).2.1 = n ∧
    (seedUsers n createO pwO).1 =
      (List.range' 1 n).countP (userSuccess createO pwO) ∧
    (seedUsers n createO pwO).2.1 =
      (List.range' 1 n).countP (fun i => !(userSuccess createO pwO i)) ∧
    (∀ i, 1 ≤ i → i ≤ n →
      SeedEvent.createUser i ∈ (seedUsers n createO pwO).2.2) ∧
    (∀ (createO2 : Nat → Option String) (pwO2 : Nat → Bool) (j : Nat),
      1 ≤ j → j ≤ n →
      (∀ i, i ≠ j → userSuccess createO pwO i = userSuccess createO2 pwO2 i) →
      userSuccess createO pwO j = true → userSuccess createO2 pwO2 j = false →
      (seedUsers n createO2 pwO2).2.1 = (seedUsers n createO pwO).2.1 + 1) := by
  rw [seedUsers_eq]
  refine ⟨?_, rfl, rfl, ?_, ?_⟩
  · rw [countP_add_countP_not]
    simp
  · intro i hi1 hin
    apply List.mem_flatMap.mpr
    exact ⟨i, List.mem_range'_1.mpr ⟨hi1, by omega⟩,
      List.mem_cons_self _ _⟩
  · intro createO2 pwO2 j hj1 hjn hagree hjs hjf
    rw [seedUsers_eq]
    apply countP_flip_one (List.range' 1 n) _ _ j (List.nodup_range' 1 n)
      (List.mem_range'_1.mpr ⟨hj1, by omega⟩)
    · intro i _ hne
      rw [hagree i hne]
    · rw [hjs]; rfl
    · rw [hjf]; rfl

/-- Witness for C2 at N = 10 with all indices succeeding, against a second
run in which index 5 fails. -/
theorem claim_C2_witness :
    (seedUsers 10 (fun _ => some "u") (fun _ => true)).1 +
      (seedUsers 10 (fun _ => some "u") (fun _ => true)).2.1 = 10 ∧
    (seedUsers 10 (fun i => if i = 5 then none else some "u")
        (fun _ => true)).2.1 =
      (seedUsers 10 (fun _ => some "u") (fun _ => true)).2.1 + 1 :=
  ⟨(claim_C2_user_loop 10 (fun _ => some "u") (fun _ => true)).1,
   (claim_C2_user_loop 10 (fun _ => some "u") (fun _ => true)).2.2.2.2
     (fun i => if i = 5 then none else some "u") (fun _ => true) 5
     (by decide) (by decide)
     (by intro i hi; simp [userSuccess, pyTruthyStr, hi])
     (by decide) (by decide)⟩

/-- C3 counterexample: Backend A (Keycloak) maps status 400 on create-realm
to failure, while the claim asserts the 400-or-409 class yields success for
every backend. -/
theorem claim_C3_kc400_cex : kcCreateRealm (some 400) = false := by decide

/-- C3 (amended): create-realm returns success for 200/201 (plus 204 for
Backend A) and for the "already exists" class, which is 400-or-409 for
Backend B (FerrisKey) but only 409 for Backend A (Keycloak, where 400 is a
failure); every other status (and a transport exception) yields false
without raising; hence a second create-realm with the same name, observing
the backend's already-exists class, succeeds as well. -/
theorem claim_C3_create_realm (s s1 s2 : Nat) :
    ((s = 200 ∨ s = 201 ∨ s = 400 ∨ s = 409) → fkCreateRealm (some s) = true) ∧
    (¬(s = 200 ∨ s = 201 ∨ s = 400 ∨ s = 409) → fkCreateRealm (some s) = false) ∧
    ((s = 200 ∨ s = 201 ∨ s = 204 ∨ s = 409) → kcCreateRealm (some s) = true) ∧
    (¬(s = 200 ∨ s = 201 ∨ s = 204 ∨ s = 409) → kcCreateRealm (some s) = false) ∧
    fkCreateRealm none = false ∧
    kcCreateRealm none = false ∧
    ((s1 = 200 ∨ s1 = 201) → (s2 = 400 ∨ s2 = 409) →
      fkCreateRealm (some s1) = true ∧ fkCreateRealm (some s2) = true) ∧
    ((s1 = 200 ∨ s1 = 201 ∨ s1 = 204) → s2 = 409 →
      kcCreateRealm (some s1) = true ∧ kcCreateRealm (some s2) = true) := by
  refine ⟨?_, ?_, ?_, ?_, rfl, rfl, ?_, ?_⟩
  · rintro (rfl | rfl | rfl | rfl) <;> decide
  · intro h
    simp only [kcCreateRealm, fkCreateRealm]
    rw [if_neg (by omega), if_neg (by omega)]
  · rintro (rfl | rfl | rfl | rfl) <;> decide
  · intro h
    simp only [kcCreateRealm]
    rw [if_neg (by omega), if_neg (by omega)]
  · rintro (rfl | rfl) (rfl | rfl) <;> exact ⟨by decide, by decide⟩
  · rintro (rfl | rfl | rfl) rfl <;> exact ⟨by decide, by decide⟩
/-- Witness for C3 at concrete statuses: FerrisKey succeeds on 400,
Keycloak fails on 500, and a create-then-recreate pair (201 then 409)
succeeds twice on Keycloak. -/
theorem claim_C3_witness :
    fkCreateRealm (some 400) = true ∧
    kcCreateRealm (some 500) = false ∧
    (kcCreateRealm (some 201) = true ∧ kcCreateRealm (some 409) = true) :=
  ⟨(claim_C3_create_realm 400 0 0).1 (by decide),
   (claim_C3_create_realm 500 0 0).2.2.2.1 (by decide),
   (claim_C3_create_realm 0 201 409).2.2.2.2.2.2.2 (by decide) (by decide)⟩

/-- C7: cleanup delete-realm returns success for 200 or 204, success for
404 (deleting a nonexistent realm is not an error), and failure for any
other status (or transport exception) without terminating: a confirmed run
with a successful authentication exits with code 0 whatever the delete
response was. -/
theorem claim_C7_delete_realm (s : Nat) (inp : Option String)
    (a : Option TokenHttpResponse) (d : Option Nat) (t : String) :
    ((s = 200 ∨ s = 204) → kcDeleteRealm (some s) = true) ∧
    kcDeleteRealm (some 404) = true ∧
    (¬(s = 200 ∨ s = 204 ∨ s = 404) → kcDeleteRealm (some s) = false) ∧
    kcDeleteRealm none = false ∧
    (confirmDeletion inp = true → cleanupGetAdminToken a = .ok t →
      cleanupMain inp a d =
        (0, [CleanupEvent.authCall, CleanupEvent.deleteRealmCall])) := by
  refine ⟨?_, rfl, ?_, rfl, ?_⟩
  · rintro (rfl | rfl) <;> decide
  · intro h
    simp only [kcDeleteRealm]
    rw [if_neg (by omega), if_neg (by omega)]
  · intro hc ht
    simp [cleanupMain, hc, ht]

/-- Witness for C7: a confirmed cleanup whose delete-realm call returns 500
(a failure) still exits with code 0. -/
theorem claim_C7_witness :
    kcDeleteRealm (some 500) = false ∧
    cleanupMain (some "y") (some ⟨200, some "tok"⟩) (some 500) =
      (0, [CleanupEvent.authCall, CleanupEvent.deleteRealmCall]) :=
  ⟨(claim_C7_delete_realm 500 none none none "").2.2.1 (by decide),
   (claim_C7_delete_realm 0 (some "y") (some ⟨200, some "tok"⟩)
      (some 500) "tok").2.2.2.2 (by decide) (by rfl)⟩

/-- C9: any confirmation response other than an affirmative y/yes
(case-insensitive, whitespace-stripped), including an interrupt or
end-of-input, makes the cleanup run exit with code 0 before the
authentication and delete-realm steps, with no network call made. -/
theorem claim_C9_confirm_gate (inp : Option String)
    (a : Option TokenHttpResponse) (d : Option Nat) :
    confirmDeletion none = false ∧
    (∀ s, confirmDeletion (some s) = true ↔
      (pyLower (pyStrip s) = "y" ∨ pyLower (pyStrip s) = "yes")) ∧
    (confirmDeletion inp = false → cleanupMain inp a d = (0, [])) := by
  refine ⟨rfl, ?_, ?_⟩
  · intro s
    simp only [confirmDeletion]
    split <;> simp_all
  · intro h
    simp [cleanupMain, h]

/-- Witness for C9: the response "q" cancels with exit code 0 and no
network calls, while a padded mixed-case " Yes " is affirmative. -/
theorem claim_C9_witness :
    cleanupMain (some "q") none none = (0, []) ∧
    confirmDeletion (some " Yes ") = true :=
  ⟨(claim_C9_confirm_gate (some "q") none none).2.2 (by decide),
   ((claim_C9_confirm_gate none none none).2.1 " Yes ").mpr (by decide)⟩

/-- C10: for Backend B (FerrisKey), a create-client response with status
400 or 409 yields a null identifier, the adapter issues no secondary
lookup (its only HTTP call is the creation POST), and the default-client
workflow then returns (null, null) without attempting secret retrieval. -/
theorem claim_C10_fk_conflict (s : Nat) (body : Option JsonIdBody)
    (sr : Option FkGetSecretResponse) (h : s = 400 ∨ s = 409) :
    fkCreateClientTr (some ⟨s, body⟩) = (none, [FkCall.createClientPost]) ∧
    fkCreateDefaultClient (some ⟨s, body⟩) sr =
      ((none, none), [FkCall.createClientPost]) ∧
    FkCall.getClientSecretGet ∉ (fkCreateDefaultClient (some ⟨s, body⟩) sr).2 := by
  have hcc : fkCreateClient (some ⟨s, body⟩) = none := by
    rcases h with rfl | rfl <;> simp [fkCreateClient]
  refine ⟨?_, ?_, ?_⟩
  · rw [fkCreateClientTr, hcc]
  · rw [fkCreateDefaultClient, fkCreateClientTr, hcc]
    rfl
  · rw [fkCreateDefaultClient, fkCreateClientTr, hcc]
    simp [pyTruthyStr]

/-- Witness for C10 at a 409 create-client response whose JSON even carries
an id: the result is still (null, null) after the single creation POST. -/
theorem claim_C10_witness :
    fkCreateDefaultClient (some ⟨409, some ⟨some "uuid-1", none⟩⟩)
        (some ⟨200, ⟨some "sec", none⟩⟩) =
      ((none, none), [FkCall.createClientPost]) :=
  (claim_C10_fk_conflict 409 (some ⟨some "uuid-1", none⟩)
    (some ⟨200, ⟨some "sec", none⟩⟩) (Or.inr rfl)).2.1

/-- C4: for Backend B (FerrisKey) with no caller-supplied client secret
configured, the default-client creation request body carries no
client_secret key; when creation yields a (truthy) client UUID the returned
secret is exactly the value of the dedicated client-fetch secret retrieval
(data.secret preferred, top-level secret as fallback), and when creation
yields no UUID the result is (null, null). -/
theorem claim_C4_fk_default_client (cfgSecret : Option String)
    (clientId : String) (cr : Option FkCreateResponse)
    (sr : Option FkGetSecretResponse) (hsec : cfgSecret = none) :
    "client_secret" ∉ (cleanClientData (fkDefaultClientData clientId)).map Prod.fst ∧
    (pyTruthyStr (fkCreateClient cr) = true →
      (fkCreateDefaultClient cr sr).1 = (fkCreateClient cr, fkGetClientSecret sr)) ∧
    (pyTruthyStr (fkCreateClient cr) = false →
      (fkCreateDefaultClient cr sr).1 = (none, none)) ∧
    (∀ ds ts, pyTruthyStr ds = true →
      fkGetClientSecret (some ⟨200, ⟨ds, ts⟩⟩) = ds) ∧
    (∀ ds ts, pyTruthyStr ds = false →
      fkGetClientSecret (some ⟨200, ⟨ds, ts⟩⟩) = ts) := by
  refine ⟨?_, ?_, ?_, ?_, ?_⟩
  · simp [cleanClientData, fkDefaultClientData, startsWithUnderscore]
  · intro h
    rw [fkCreateDefaultClient, fkCreateClientTr]
    simp [h, fkGetClientSecretTr]
  · intro h
    rw [fkCreateDefaultClient, fkCreateClientTr]
    simp [h]
  · intro ds ts h
    simp [fkGetClientSecret, pyOrStr, h]
  · intro ds ts h
    simp [fkGetClientSecret, pyOrStr, h]

/-- Witness for C4: a successful creation (201, data.id present) with a
200 client-fetch carrying data.secret yields exactly that secret. -/
theorem claim_C4_witness :
    "client_secret" ∉
      (cleanClientData (fkDefaultClientData "perf-client")).map Prod.fst ∧
    (fkCreateDefaultClient (some ⟨201, some ⟨some "uuid-1", none⟩⟩)
        (some ⟨200, ⟨some "s3cret", none⟩⟩)).1 = (some "uuid-1", some "s3cret") :=
  ⟨(claim_C4_fk_default_client none "perf-client" none none rfl).1,
   (claim_C4_fk_default_client none "perf-client"
      (some ⟨201, some ⟨some "uuid-1", none⟩⟩)
      (some ⟨200, ⟨some "s3cret", none⟩⟩) rfl).2.1 (by decide)⟩

/-- C6 counterexample: a create-client response with the 2xx status 202 and
a Location header present yields a null identifier on Backend A, not the
final path segment of the header as the claim's "2xx" wording asserts. -/
theorem claim_C6_202_cex :
    kcCreateClient (some ⟨202, some "http://h/admin/realms/perf/clients/abc-123"⟩)
        none = none ∧
    lastPathSegment "http://h/admin/realms/perf/clients/abc-123" = "abc-123" := by
  constructor
  · decide
  · decide

/-- C6 (amended): for Backend A (Keycloak), a creation response with status
200, 201 or 204 yields the final path segment of the Location header (null
when the header is absent or empty; other 2xx statuses such as 202 fall to
the failure branch); on 409 the result is the secondary lookup's answer —
the first matching client's id when the filtered list call returns 200 with
a nonempty list, and null when the lookup fails, returns another status, or
finds no client. -/
theorem claim_C6_kc_create_client (s : Nat) (loc : Option String)
    (lookup : Option KcListClientsResponse) :
    ((s = 200 ∨ s = 201 ∨ s = 204) → ∀ l, loc = some l → l ≠ "" →
      kcCreateClient (some ⟨s, loc⟩) lookup = some (lastPathSegment l)) ∧
    ((s = 200 ∨ s = 201 ∨ s = 204) → (loc = none ∨ loc = some "") →
      kcCreateClient (some ⟨s, loc⟩) lookup = none) ∧
    (s = 409 → kcCreateClient (some ⟨s, loc⟩) lookup = kcGetClientUuid lookup) ∧
    (s = 409 → ∀ e rest, lookup = some ⟨200, e :: rest⟩ →
      kcCreateClient (some ⟨s, loc⟩) lookup = e.id) ∧
    (s = 409 → lookup = none → kcCreateClient (some ⟨s, loc⟩) lookup = none) ∧
    (s = 409 → ∀ st cs, st ≠ 200 → lookup = some ⟨st, cs⟩ →
      kcCreateClient (some ⟨s, loc⟩) lookup = none) ∧
    (s = 409 → lookup = some ⟨200, []⟩ →
      kcCreateClient (some ⟨s, loc⟩) lookup = none) := by
  refine ⟨?_, ?_, ?_, ?_, ?_, ?_, ?_⟩
  · intro hs l hl hne
    subst hl
    rcases hs with rfl | rfl | rfl <;> simp [kcCreateClient, hne]
  · intro hs hl
    rcases hl with rfl | rfl <;>
      rcases hs with rfl | rfl | rfl <;> simp [kcCreateClient]
  · rintro rfl
    simp [kcCreateClient]
  · rintro rfl e rest rfl
    simp [kcCreateClient, kcGetClientUuid]
  · rintro rfl rfl
    simp [kcCreateClient, kcGetClientUuid]
  · rintro rfl st cs hst rfl
    simp [kcCreateClient, kcGetClientUuid, hst]
  · rintro rfl rfl
    simp [kcCreateClient, kcGetClientUuid]

/-- Witness for C6: a 201 creation with a Location header yields its last
path segment, and a 409 creation recovers the UUID via the lookup. -/
theorem claim_C6_witness :
    kcCreateClient (some ⟨201, some "http://h/admin/realms/perf/clients/u-77"⟩)
        none = some "u-77" ∧
    kcCreateClient (some ⟨409, none⟩)
        (some ⟨200, [⟨some "u-88"⟩, ⟨some "u-99"⟩]⟩) = some "u-88" := by
  constructor
  · have := (claim_C6_kc_create_client 201
      (some "http://h/admin/realms/perf/clients/u-77") none).1
      (Or.inr (Or.inl rfl)) "http://h/admin/realms/perf/clients/u-77" rfl
      (by decide)
    rw [this]
    decide
  · exact (claim_C6_kc_create_client 409 none
      (some ⟨200, [⟨some "u-88"⟩, ⟨some "u-99"⟩]⟩)).2.2.2.1 rfl
      ⟨some "u-88"⟩ [⟨some "u-99"⟩] rfl

/-- C8: for Backend B (FerrisKey) authentication under the loaded
configuration, an absent administrative client identifier exits fatally
before any HTTP request is issued; otherwise exactly one token request is
posted, carrying the client identifier, admin username and admin password,
with a client_secret field exactly when an administrative client secret is
configured. -/
theorem claim_C8_fk_auth (envCid envCsec : Option String) (u p : String)
    (resp : Option TokenHttpResponse) :
    (envNorm envCid = none →
      fkGetAdminTokenTr (loadFkAuthConfig envCid envCsec u p) resp =
        (.error 1, [])) ∧
    (∀ cid, envNorm envCid = some cid →
      (fkGetAdminTokenTr (loadFkAuthConfig envCid envCsec u p) resp).2 =
        [{ grantType := "password", clientId := cid, username := u,
           password := p, clientSecret := envNorm envCsec }] ∧
      ((fkTokenRequestData (loadFkAuthConfig envCid envCsec u p)).clientSecret.isSome
        ↔ (envNorm envCsec).isSome)) := by
  have hsec : (if pyTruthyStr (envNorm envCsec) then envNorm envCsec else none) =
      envNorm envCsec := by
    rw [pyTruthyStr_envNorm]
    cases envNorm envCsec <;> simp
  constructor
  · intro h
    simp [fkGetAdminTokenTr, loadFkAuthConfig, h, pyTruthyStr]
  · intro cid h
    have htr : pyTruthyStr (envNorm envCid) = true := by
      rw [h, pyTruthyStr]
      simpa using envNorm_no_empty envCid cid h
    constructor
    · simp only [fkGetAdminTokenTr, loadFkAuthConfig, htr, if_pos]
      simp [fkTokenRequestData, loadFkAuthConfig, h, hsec]
    · simp [fkTokenRequestData, loadFkAuthConfig, hsec]

/-- Witness for C8: a blank ADMIN_CLIENT_ID is fatal with no request; a
padded "admin-cli" with no secret posts exactly one secretless request. -/
theorem claim_C8_witness :
    fkGetAdminTokenTr (loadFkAuthConfig (some "  ") (some "sec") "admin" "pw")
        none = (.error 1, []) ∧
    (fkGetAdminTokenTr (loadFkAuthConfig (some " admin-cli ") none "admin" "pw")
        (some ⟨200, some "tok"⟩)).2 =
      [{ grantType := "password", clientId := "admin-cli", username := "admin",
         password := "pw", clientSecret := none }] := by
  constructor
  · exact (claim_C8_fk_auth (some "  ") (some "sec") "admin" "pw" none).1 (by decide)
  · have := ((claim_C8_fk_auth (some " admin-cli ") none "admin" "pw"
      (some ⟨200, some "tok"⟩)).2 "admin-cli" (by decide)).1
    rw [this]
    decide

/-- C1 counterexample: a successful (200) token response whose JSON body
carries the access_token value "" makes authentication exit the process
rather than return that present token string. -/
theorem claim_C1_empty_token_cex :
    kcGetAdminToken (some ⟨200, some ""⟩) = Except.error 1 ∧
    kcGetAdminToken (some ⟨200, some ""⟩) ≠ Except.ok "" := by
  constructor
  · rfl
  · intro h
    exact absurd (by rw [← h]; rfl : Except.error 1 = Except.ok "") (by simp)

/-- C1 (amended): for either backend, a 2xx token response whose JSON body
has no access_token value — or an empty-string one, which the truthiness
check treats as missing — exits the process fatally, and a run whose
authentication is fatal performs no realm, client or user operation; a 2xx
response carrying a nonempty token makes authenticate return exactly that
token string. -/
theorem claim_C1_auth_token (s : Nat) (tok : Option String)
    (cfg : FkAuthConfig) (t : String) (c : Nat) (realmResp : Option Nat)
    (clientResps : List (Option FkCreateResponse)) (userCount : Nat)
    (createO : Nat → Option String) (pwO : Nat → Bool) :
    (200 ≤ s → s < 300 → (tok = none ∨ tok = some "") →
      kcGetAdminToken (some ⟨s, tok⟩) = .error 1 ∧
      (pyTruthyStr cfg.adminClientId = true →
        fkGetAdminTokenTr cfg (some ⟨s, tok⟩) =
          (.error 1, [fkTokenRequestData cfg]))) ∧
    (200 ≤ s → s < 300 → t ≠ "" →
      kcGetAdminToken (some ⟨s, some t⟩) = .ok t ∧
      (pyTruthyStr cfg.adminClientId = true →
        (fkGetAdminTokenTr cfg (some ⟨s, some t⟩)).1 = .ok t)) ∧
    seedMain (.error c) realmResp clientResps userCount createO pwO =
      (c, [SeedEvent.auth]) := by
  refine ⟨?_, ?_, rfl⟩
  · intro h2 h3 htok
    have hr : raisesForStatus s = false := by
      rw [raisesForStatus, if_neg (by omega)]
    have hk : tokenResult (some ⟨s, tok⟩) = .error 1 := by
      rcases htok with rfl | rfl <;> simp [tokenResult, hr]
    exact ⟨hk, fun hc => by simp [fkGetAdminTokenTr, hc, hk]⟩
  · intro h2 h3 ht
    have hr : raisesForStatus s = false := by
      rw [raisesForStatus, if_neg (by omega)]
    have hk : tokenResult (some ⟨s, some t⟩) = .ok t := by
      simp [tokenResult, hr, ht]
    exact ⟨hk, fun hc => by simp [fkGetAdminTokenTr, hc, hk]⟩

/-- Witness for C1: a 200 response with no access_token field is fatal, a
200 response with token "tok" returns "tok", and a run with fatal
authentication traces nothing beyond the authentication attempt. -/
theorem claim_C1_witness :
    kcGetAdminToken (some ⟨200, none⟩) = .error 1 ∧
    kcGetAdminToken (some ⟨200, some "tok"⟩) = .ok "tok" ∧
    seedMain (.error 1) none [] 3 (fun _ => none) (fun _ => false) =
      (1, [SeedEvent.auth]) :=
  ⟨((claim_C1_auth_token 200 none ⟨none, none, "", ""⟩ "" 0 none [] 0
      (fun _ => none) (fun _ => false)).1 (by decide) (by decide)
      (Or.inl rfl)).1,
   ((claim_C1_auth_token 200 none ⟨none, none, "", ""⟩ "tok" 0 none [] 0
      (fun _ => none) (fun _ => false)).2.1 (by decide) (by decide)
      (by decide)).1,
   (claim_C1_auth_token 200 none ⟨none, none, "", ""⟩ "" 1 none [] 3
      (fun _ => none) (fun _ => false)).2.2⟩

end FerrisKeyPerf
